import Mathlib

/-!
Shallow embedding of `src/main.rs` (fps3d): a minimal wgpu/winit render loop
with a background keyboard input state machine.  Definitions are translated
from the Rust source; theorems settle the specification claims.
-/

namespace FPS3D

/-! ## Input messages (`KeyFlag`, `KeyState`, src/main.rs lines 10-20)

Key codes are modelled by their numeric discriminant (`keycode as usize`
in the source); winit's `KeyCode` enum discriminants are natural numbers.
-/

inductive KeyFlag where
  | Pressed
  | Released
  | Exit
deriving DecidableEq, Repr

structure KeyState where
  key_flag : KeyFlag
  keycode : Nat
deriving DecidableEq, Repr

/-- Discriminant of winit `KeyCode::Escape`, the code attached to the Exit
message in `process_window_event`. -/
def escapeCode : Nat := 114

/-! ## GameState keyboard table (src/main.rs lines 46-61)

`keyboard: [bool; 193]` is a fixed 193-slot boolean array.  We model it as a
total function on `Nat` together with a bounds-checked write `kbSet`: Rust
array indexing `self.keyboard[i] = b` panics when `i ≥ 193`, which `kbSet`
models by returning `none`. -/

abbrev Keyboard := Nat → Bool

/-- The initial table of `GameState::new`: all 193 flags false. -/
def kbInit : Keyboard := fun _ => false

/-- Bounds-checked array write: `self.keyboard[i] = b`.  `none` models the
Rust index-out-of-bounds panic for `i ≥ 193`. -/
def kbSet (kb : Keyboard) (i : Nat) (b : Bool) : Option Keyboard :=
  if i < 193 then some (fun j => if j = i then b else kb j) else none

/-- One non-Exit message step of the loop body of `GameState::run`
(src/main.rs lines 71-77): Pressed sets `keyboard[code] = true`, Released
sets it to `false`.  The Exit branch is handled by `runQueue` before this
point (the `break` at line 68); a message with the Exit flag falls through
both `if`s and leaves the table untouched. -/
def stepMsg (kb : Keyboard) (v : KeyState) : Option Keyboard :=
  match v.key_flag with
  | .Pressed => kbSet kb v.keycode true
  | .Released => kbSet kb v.keycode false
  | .Exit => some kb

/-- Result of draining a finite queue of messages through `GameState::run`. -/
inductive RunResult where
  | exited (kb : Keyboard)
  | drained (kb : Keyboard)
  | panicked

/-- `GameState::run` restricted to a finite message queue: each iteration
dequeues at most one message (`try_recv`); an Exit message breaks the loop
(src/main.rs lines 67-69); Pressed/Released update the table (an
out-of-bounds code panics).  `drained` is the state left when the queue is
exhausted (the real loop then keeps spinning without messages, which does
not change the table). -/
def runQueue (kb : Keyboard) : List KeyState → RunResult
  | [] => .drained kb
  | v :: rest =>
    if v.key_flag = KeyFlag.Exit then .exited kb
    else
      match stepMsg kb v with
      | none => .panicked
      | some kb' => runQueue kb' rest

/-! ## Input relay (`process_window_event`, src/main.rs lines 22-39) -/

inductive ElementState where
  | pressed
  | released
deriving DecidableEq, Repr

inductive PhysicalKey where
  | code (c : Nat)
  | unidentified
deriving DecidableEq, Repr

structure PhysicalSize where
  width : Nat
  height : Nat
deriving DecidableEq, Repr

inductive WindowEvt where
  | closeRequested
  | keyboardInput (state : ElementState) (physical_key : PhysicalKey)
  | resized (physical_size : PhysicalSize)
  | redrawRequested
  | other
deriving DecidableEq, Repr

/-- `process_window_event`: returns the list of messages sent on the channel
and whether `control_flow.exit()` was called.  The source is three
sequential `if let` tests: CloseRequested sends Exit (with the Escape code)
and exits the loop; a keyboard event with a physical key code sends
Pressed/Released with that code; everything else sends nothing. -/
def process_window_event (e : WindowEvt) : List KeyState × Bool :=
  let close : List KeyState × Bool :=
    match e with
    | .closeRequested => ([⟨KeyFlag.Exit, escapeCode⟩], true)
    | _ => ([], false)
  let press : List KeyState :=
    match e with
    | .keyboardInput .pressed (.code c) => [⟨KeyFlag.Pressed, c⟩]
    | _ => []
  let release : List KeyState :=
    match e with
    | .keyboardInput .released (.code c) => [⟨KeyFlag.Released, c⟩]
    | _ => []
  (close.1 ++ press ++ release, close.2)

/-! ## Mesh constants (`Vertex`, `VERTICES`, `INDICES`, src/main.rs lines 99-133)

Vertex coordinates are `f32` literals in the source; we carry them as the
exact rationals denoted by the source text (no claim computes with them). -/

structure Vertex where
  position : Rat × Rat × Rat
  color : Rat × Rat × Rat
deriving DecidableEq, Repr

def VERTICES : List Vertex := [
  ⟨(-0.0868241, 0.49240386, 0.0), (0.5, 0.0, 0.5)⟩,
  ⟨(-0.49513406, 0.06958647, 0.0), (0.5, 0.0, 0.5)⟩,
  ⟨(-0.21918549, -0.44939706, 0.0), (0.5, 0.0, 0.5)⟩,
  ⟨(0.35966998, -0.3473291, 0.0), (0.5, 0.0, 0.5)⟩,
  ⟨(0.44147372, 0.2347359, 0.0), (0.5, 0.0, 0.5)⟩]

/-- The `u16` index array (all values fit in 16 bits). -/
def INDICES : List Nat := [0, 1, 4, 1, 2, 4, 2, 3, 4]

/-! ## Surface capabilities and configuration (src/main.rs lines 186-202) -/

/-- A surface texture format; `srgb` records what `f.is_srgb()` returns. -/
structure TextureFormat where
  id : Nat
  srgb : Bool
deriving DecidableEq, Repr

structure PresentMode where
  id : Nat
deriving DecidableEq, Repr

structure AlphaMode where
  id : Nat
deriving DecidableEq, Repr

/-- `surface.get_capabilities(&adapter)`: the platform-reported lists. -/
structure SurfaceCapabilities where
  formats : List TextureFormat
  present_modes : List PresentMode
  alpha_modes : List AlphaMode
deriving DecidableEq, Repr

/-- `wgpu::TextureUsages::RENDER_ATTACHMENT` bit. -/
def RENDER_ATTACHMENT : Nat := 16

structure SurfaceConfiguration where
  usage : Nat
  format : TextureFormat
  width : Nat
  height : Nat
  present_mode : PresentMode
  alpha_mode : AlphaMode
  view_formats : List TextureFormat
  desired_maximum_frame_latency : Nat
deriving DecidableEq, Repr

/-- Format selection (src/main.rs lines 188-191):
`surface_caps.formats.iter().find(|f| f.is_srgb()).copied().unwrap_or(surface_caps.formats[0])`.
`none` models the index panic of `formats[0]` on an empty list. -/
def surfaceFormat (formats : List TextureFormat) : Option TextureFormat :=
  match formats with
  | [] => none
  | f0 :: _ => some ((formats.find? fun f => f.srgb).getD f0)

/-! ## Render pipeline (src/main.rs lines 214-252) -/

inductive PrimitiveTopology where
  | TriangleList
deriving DecidableEq, Repr

inductive FrontFace where
  | Ccw
deriving DecidableEq, Repr

inductive Face where
  | Back
deriving DecidableEq, Repr

inductive PolygonMode where
  | Fill
deriving DecidableEq, Repr

/-- The one fixed render pipeline, keeping the descriptor fields the claims
touch; `target_format` is the `format: config.format` of the single color
target (src/main.rs line 229). -/
structure RenderPipeline where
  topology : PrimitiveTopology
  front_face : FrontFace
  cull_mode : Option Face
  polygon_mode : PolygonMode
  sample_count : Nat
  target_format : TextureFormat
deriving DecidableEq, Repr

/-! ## GraphicEngine (src/main.rs lines 135-147) -/

/-- The persistent engine state: the fields of `GraphicEngine` that carry
data (surface/device/queue/window are external handles; `buffer` and
`index_buffer` are carried by their uploaded contents). -/
structure GraphicEngine where
  config : SurfaceConfiguration
  size : PhysicalSize
  pipeline : RenderPipeline
  buffer : List Vertex
  index_buffer : List Nat
  num_indices : Nat
  num_vertices : Nat
deriving DecidableEq, Repr

/-- `GraphicEngine::new` (src/main.rs lines 150-286), as a function of the
queried surface capabilities and the window's inner size.  `none` models the
panics on an empty capability list (`formats[0]`, `present_modes[0]`,
`alpha_modes[0]`); adapter/device acquisition failures abort the process
before any of this state exists and are outside the model. -/
def engineNew (caps : SurfaceCapabilities) (size : PhysicalSize) : Option GraphicEngine := do
  let surface_format ← surfaceFormat caps.formats
  let present_mode ← caps.present_modes.head?
  let alpha_mode ← caps.alpha_modes.head?
  let config : SurfaceConfiguration :=
    ⟨RENDER_ATTACHMENT, surface_format, size.width, size.height,
     present_mode, alpha_mode, [], 2⟩
  let pipeline : RenderPipeline :=
    ⟨.TriangleList, .Ccw, some .Back, .Fill, 1, config.format⟩
  some ⟨config, size, pipeline, VERTICES, INDICES,
        INDICES.length, VERTICES.length⟩

/-- `GraphicEngine::resize` (src/main.rs lines 290-299).  Returns the new
engine state and whether `surface.configure` was called: only when both
dimensions are positive are `size`, `config.width`, `config.height` updated
and the surface reconfigured; otherwise nothing changes. -/
def resize (e : GraphicEngine) (new_size : PhysicalSize) : GraphicEngine × Bool :=
  if new_size.width > 0 ∧ new_size.height > 0 then
    ({ e with
        size := new_size,
        config := { e.config with width := new_size.width, height := new_size.height } },
     true)
  else (e, false)

/-! ## Frame rendering (`GraphicEngine::render`, src/main.rs lines 313-353) -/

inductive SurfaceError where
  | Timeout
  | Outdated
  | Lost
  | OutOfMemory
deriving DecidableEq, Repr

inductive IndexFormat where
  | Uint16
  | Uint32
deriving DecidableEq, Repr

/-- Commands recorded into the single render pass. -/
inductive RenderCmd where
  | setPipeline
  | setVertexBuffer (slot : Nat)
  | setIndexBuffer (fmt : IndexFormat)
  | drawIndexed (first last : Nat) (base_vertex : Int) (inst_first inst_last : Nat)
deriving DecidableEq, Repr

def isDraw : RenderCmd → Bool
  | .drawIndexed _ _ _ _ _ => true
  | _ => false

/-- The clear color of the render pass: r=0.1 g=0.2 b=0.3 a=1.0. -/
def clearColor : Rat × Rat × Rat × Rat := (0.1, 0.2, 0.3, 1.0)

/-- `GraphicEngine::render`.  `acquire` is the outcome of
`surface.get_current_texture()`, the single fallible step; `?` propagates
its error.  On success the pass records pipeline, vertex buffer slot 0,
index buffer as `Uint16`, and one `draw_indexed(0..num_indices, 0, 0..1)`.
The body assigns no field of `self`, so the engine state is returned
unchanged in both outcomes. -/
def render (st : GraphicEngine) (acquire : Except SurfaceError Unit) :
    GraphicEngine × Except SurfaceError (List RenderCmd) :=
  match acquire with
  | .error e => (st, .error e)
  | .ok _ =>
    (st, .ok [RenderCmd.setPipeline,
              RenderCmd.setVertexBuffer 0,
              RenderCmd.setIndexBuffer IndexFormat.Uint16,
              RenderCmd.drawIndexed 0 st.num_indices 0 0 1])

/-! ## Event loop driver (`main`, src/main.rs lines 378-408) -/

/-- How the driver responds to the result of `state.render()`. -/
inductive DriverResponse where
  | proceed
  | resizeWith (sz : PhysicalSize)
  | exitLoop
  | log (e : SurfaceError)
deriving DecidableEq, Repr

/-- The `match state.render()` arms (src/main.rs lines 395-400): `Ok` does
nothing; `Lost` resizes with the current `state.size`; `OutOfMemory` exits
the event loop; any other error (`Outdated`, `Timeout`) hits the catch-all
`Err(e) => eprintln!` arm. -/
def handleRenderResult (st : GraphicEngine) : Except SurfaceError α → DriverResponse
  | .ok _ => .proceed
  | .error .Lost => .resizeWith st.size
  | .error .OutOfMemory => .exitLoop
  | .error e => .log e

/-- The `WindowEvent::Resized` arm (src/main.rs lines 381-384):
`surface_configured = true; state.resize(*physical_size)`.  Returns the new
configured flag, the new engine state, and whether the surface was
reconfigured. -/
def handleResized (_surface_configured : Bool) (st : GraphicEngine)
    (physical_size : PhysicalSize) : Bool × GraphicEngine × Bool :=
  (true, resize st physical_size)

/-- Observable driver effects during one RedrawRequested dispatch. -/
inductive DriverEffect where
  | requestRedraw
  | update
  | renderCall
  | resizeCall (sz : PhysicalSize)
  | exitLoop
  | logError (e : SurfaceError)
deriving DecidableEq, Repr

/-- The `WindowEvent::RedrawRequested` arm (src/main.rs lines 386-401):
request another redraw first; if the surface is not yet configured, return
immediately; otherwise `update()` (a no-op), `render()`, and dispatch on the
result.  Returns (effects, new engine state, exit requested). -/
def handleRedrawRequested (surface_configured : Bool) (st : GraphicEngine)
    (acquire : Except SurfaceError Unit) :
    List DriverEffect × GraphicEngine × Bool :=
  if ¬ surface_configured then ([DriverEffect.requestRedraw], st, false)
  else
    let (st1, r) := render st acquire
    match handleRenderResult st1 r with
    | .proceed =>
        ([DriverEffect.requestRedraw, .update, .renderCall], st1, false)
    | .resizeWith sz =>
        ([DriverEffect.requestRedraw, .update, .renderCall, .resizeCall sz],
         (resize st1 sz).1, false)
    | .exitLoop =>
        ([DriverEffect.requestRedraw, .update, .renderCall, .exitLoop], st1, true)
    | .log e =>
        ([DriverEffect.requestRedraw, .update, .renderCall, .logError e], st1, false)

/-! ## Concrete fixtures for witnesses -/

def fallbackEngine : GraphicEngine :=
  ⟨⟨RENDER_ATTACHMENT, ⟨0, true⟩, 800, 600, ⟨0⟩, ⟨0⟩, [], 2⟩,
   ⟨800, 600⟩,
   ⟨.TriangleList, .Ccw, some .Back, .Fill, 1, ⟨0, true⟩⟩,
   VERTICES, INDICES, INDICES.length, VERTICES.length⟩

def testCaps : SurfaceCapabilities := ⟨[⟨0, true⟩], [⟨0⟩], [⟨0⟩]⟩

def testSize : PhysicalSize := ⟨800, 600⟩

def testEngine : GraphicEngine := (engineNew testCaps testSize).getD fallbackEngine

/-! ## Claims -/

/-- C1 (counterexample): on an `Outdated` surface error the driver takes the
catch-all log arm, not the resize arm the claim asserts: at the concrete
engine `testEngine`, `handleRenderResult` yields `log Outdated`, which is
not `resizeWith testEngine.size`. -/
theorem outdated_logged_not_resized :
    handleRenderResult testEngine (Except.error SurfaceError.Outdated : Except SurfaceError Unit)
      = DriverResponse.log SurfaceError.Outdated ∧
    handleRenderResult testEngine (Except.error SurfaceError.Outdated : Except SurfaceError Unit)
      ≠ DriverResponse.resizeWith testEngine.size :=
  ⟨rfl, by decide⟩

/-- C1 (amended): the driver classifies render outcomes as: success →
continue; `Lost` → resize with the current stored size; `OutOfMemory` →
exit the event loop; every other surface error (`Outdated`, `Timeout`) →
log and continue with the frame dropped. -/
theorem render_error_classification (st : GraphicEngine) :
    handleRenderResult st (Except.ok () : Except SurfaceError Unit) = DriverResponse.proceed ∧
    handleRenderResult st (Except.error SurfaceError.Lost : Except SurfaceError Unit)
      = DriverResponse.resizeWith st.size ∧
    handleRenderResult st (Except.error SurfaceError.OutOfMemory : Except SurfaceError Unit)
      = DriverResponse.exitLoop ∧
    handleRenderResult st (Except.error SurfaceError.Outdated : Except SurfaceError Unit)
      = DriverResponse.log SurfaceError.Outdated ∧
    handleRenderResult st (Except.error SurfaceError.Timeout : Except SurfaceError Unit)
      = DriverResponse.log SurfaceError.Timeout :=
  ⟨rfl, rfl, rfl, rfl, rfl⟩

/-- C2 (counterexample): a zero-area `Resized` event does set the configured
flag: with the flag initially false and a 0×480 size, the driver's resize
arm leaves it true (while `resize` itself correctly changes nothing and
does not reconfigure the surface). -/
theorem zero_resize_sets_configured :
    (handleResized false testEngine ⟨0, 480⟩).1 = true ∧
    (handleResized false testEngine ⟨0, 480⟩).1 ≠ false ∧
    (handleResized false testEngine ⟨0, 480⟩).2 = (testEngine, false) :=
  ⟨rfl, by decide, rfl⟩

/-- C2 (amended): a resize with width = 0 or height = 0 leaves the engine
(`SurfaceConfig` and stored size) unchanged and does not reconfigure the
surface; a resize with both dimensions positive updates `config.width`,
`config.height` and the stored size and reconfigures; but the driver marks
the surface configured on every `Resized` event, regardless of the
dimensions. -/
theorem resize_zero_nop_positive_updates (e : GraphicEngine) (sz : PhysicalSize) :
    (sz.width = 0 ∨ sz.height = 0 → resize e sz = (e, false)) ∧
    (0 < sz.width → 0 < sz.height →
      (resize e sz).1.config.width = sz.width ∧
      (resize e sz).1.config.height = sz.height ∧
      (resize e sz).1.size = sz ∧
      (resize e sz).2 = true) ∧
    (∀ c : Bool, (handleResized c e sz).1 = true) := by
  refine ⟨?_, ?_, fun _ => rfl⟩
  · intro hz
    have h : ¬ (sz.width > 0 ∧ sz.height > 0) := by
      rcases hz with h0 | h0 <;> simp [h0]
    simp [resize, h]
  · intro hw hh
    simp [resize, hw, hh]

/-- C2 witness: the amended statement at concrete inputs: a 0×480 resize of
`testEngine` is a no-op with no reconfigure, a 1024×768 resize updates the
config width, and the driver's resize arm sets the configured flag even for
the 0×480 event. -/
theorem resize_zero_nop_positive_updates_witness :
    resize testEngine ⟨0, 480⟩ = (testEngine, false) ∧
    (resize testEngine ⟨1024, 768⟩).1.config.width = 1024 ∧
    (handleResized false testEngine ⟨0, 480⟩).1 = true :=
  ⟨(resize_zero_nop_positive_updates testEngine ⟨0, 480⟩).1 (Or.inl rfl),
   ((resize_zero_nop_positive_updates testEngine ⟨1024, 768⟩).2.1
      (by decide) (by decide)).1,
   (resize_zero_nop_positive_updates testEngine ⟨0, 480⟩).2.2 false⟩

/-- C3: for every key code inside the 193-slot table, processing a Pressed
message sets the table entry for that code to true, and subsequently
processing a Released message for the same code sets it back to false. -/
theorem pressed_then_released (kb : Keyboard) (code : Nat) (h : code < 193) :
    ∃ kb1, stepMsg kb ⟨KeyFlag.Pressed, code⟩ = some kb1 ∧ kb1 code = true ∧
      ∃ kb2, stepMsg kb1 ⟨KeyFlag.Released, code⟩ = some kb2 ∧ kb2 code = false := by
  refine ⟨fun j => if j = code then true else kb j, ?_, ?_,
          fun j => if j = code then false else if j = code then true else kb j, ?_, ?_⟩ <;>
    simp [stepMsg, kbSet, h]

/-- C3 witness: the code of `KeyW` (41) is in range, and the
pressed-then-released round trip holds for it on the initial table. -/
theorem pressed_then_released_witness :
    (41 : Nat) < 193 ∧
    (∃ kb1, stepMsg kbInit ⟨KeyFlag.Pressed, 41⟩ = some kb1 ∧ kb1 41 = true ∧
      ∃ kb2, stepMsg kb1 ⟨KeyFlag.Released, 41⟩ = some kb2 ∧ kb2 41 = false) :=
  ⟨by decide, pressed_then_released kbInit 41 (by decide)⟩

/-- C4: a Pressed/Released message whose key code is outside the table
(index ≥ 193) makes the bounds-checked write fail (the Rust index panic),
writing nothing — no table entry is touched; and whenever processing a
message does succeed, every entry for a code other than the message's code
is unchanged, so no message can corrupt another code's entry. -/
theorem out_of_range_no_corruption (kb : Keyboard) (v : KeyState)
    (hflag : v.key_flag ≠ KeyFlag.Exit) :
    (193 ≤ v.keycode → stepMsg kb v = none) ∧
    (∀ kb', stepMsg kb v = some kb' → ∀ c, c ≠ v.keycode → kb' c = kb c) := by
  obtain ⟨flag, code⟩ := v
  have hset : ∀ b kb', kbSet kb code b = some kb' → ∀ c, c ≠ code → kb' c = kb c := by
    intro b kb' hs c hc
    by_cases hv : code < 193
    · simp [kbSet, hv] at hs
      subst hs
      simp [hc]
    · simp [kbSet, hv] at hs
  cases flag with
  | Exit => exact absurd rfl hflag
  | Pressed =>
      exact ⟨fun hge => by simp [stepMsg, kbSet, Nat.not_lt.mpr hge],
             fun kb' hs => hset true kb' hs⟩
  | Released =>
      exact ⟨fun hge => by simp [stepMsg, kbSet, Nat.not_lt.mpr hge],
             fun kb' hs => hset false kb' hs⟩

/-- C4 witness: code 500 lies outside the table; the Pressed message for it
is rejected by the bounds check (models the panic; nothing is written). -/
theorem out_of_range_no_corruption_witness :
    stepMsg kbInit ⟨KeyFlag.Pressed, 500⟩ = none :=
  (out_of_range_no_corruption kbInit ⟨KeyFlag.Pressed, 500⟩ (by decide)).1 (by decide)

/-- C5: on every RedrawRequested dispatch the first effect is requesting
another redraw, and when the surface is not yet marked configured the
handler does exactly that and returns: the engine state is untouched, no
update, no render call, no error effect, and no exit. -/
theorem redraw_unconfigured_skips (cfgd : Bool) (st : GraphicEngine)
    (acquire : Except SurfaceError Unit) :
    (handleRedrawRequested cfgd st acquire).1.head? = some DriverEffect.requestRedraw ∧
    handleRedrawRequested false st acquire = ([DriverEffect.requestRedraw], st, false) := by
  refine ⟨?_, rfl⟩
  cases cfgd with
  | false => rfl
  | true =>
      rcases acquire with e | u
      · cases e <;> rfl
      · rfl

/-- C6: `surfaceFormat` returns the first SRGB-capable format in the
capability list in list order; if no listed format is SRGB-capable it
returns the first format; and the engine built by `GraphicEngine::new` uses
the selected format both in its `SurfaceConfig` and as the pipeline's color
target format. -/
theorem surface_format_first_srgb :
    (∀ (l1 l2 : List TextureFormat) (f : TextureFormat),
        (∀ g ∈ l1, g.srgb = false) → f.srgb = true →
        surfaceFormat (l1 ++ f :: l2) = some f) ∧
    (∀ (f0 : TextureFormat) (fs : List TextureFormat),
        (∀ g ∈ f0 :: fs, g.srgb = false) →
        surfaceFormat (f0 :: fs) = some f0) ∧
    (∀ (caps : SurfaceCapabilities) (sz : PhysicalSize) (st : GraphicEngine),
        engineNew caps sz = some st →
        surfaceFormat caps.formats = some st.config.format ∧
        st.pipeline.target_format = st.config.format) := by
  refine ⟨?_, ?_, ?_⟩
  · intro l1 l2 f hl1 hf
    have hn : (l1.find? fun g => g.srgb) = none :=
      List.find?_eq_none.mpr (by intro x hx; simp [hl1 x hx])
    have happ : ((l1 ++ f :: l2).find? fun g => g.srgb) = some f := by
      rw [List.find?_append, hn, Option.none_or,
          List.find?_cons_of_pos _ (by simpa using hf)]
    cases l1 with
    | nil =>
        rw [List.nil_append] at happ ⊢
        simp only [surfaceFormat]
        rw [happ]
        rfl
    | cons a as =>
        rw [List.cons_append] at happ ⊢
        simp only [surfaceFormat]
        rw [happ]
        rfl
  · intro f0 fs hall
    have hn : ((f0 :: fs).find? fun g => g.srgb) = none :=
      List.find?_eq_none.mpr (by intro x hx; simp [hall x hx])
    simp [surfaceFormat, hn]
  · intro caps sz st h
    rcases hfmt : surfaceFormat caps.formats with _ | fmt <;>
      rcases hpm : caps.present_modes.head? with _ | pm <;>
      rcases ham : caps.alpha_modes.head? with _ | am <;>
      simp [engineNew, hfmt, hpm, ham] at h
    subst h
    exact ⟨rfl, rfl⟩

/-- C6 witness: the selection rules and the engine built from `testCaps`
(whose single format is SRGB-capable) at concrete inputs. -/
theorem surface_format_first_srgb_witness :
    surfaceFormat ([⟨5, false⟩] ++ ⟨7, true⟩ :: [⟨9, true⟩]) = some ⟨7, true⟩ ∧
    surfaceFormat [⟨5, false⟩] = some ⟨5, false⟩ ∧
    (surfaceFormat testCaps.formats = some testEngine.config.format ∧
     testEngine.pipeline.target_format = testEngine.config.format) :=
  ⟨surface_format_first_srgb.1 [⟨5, false⟩] [⟨9, true⟩] ⟨7, true⟩
      (by intro g hg; simp at hg; simp [hg]) rfl,
   surface_format_first_srgb.2.1 ⟨5, false⟩ []
      (by intro g hg; simp at hg; simp [hg]),
   surface_format_first_srgb.2.2 testCaps testSize testEngine rfl⟩

/-- C7: for any engine produced by bootstrap, a successful render records
exactly the fixed command list: pipeline, vertex buffer at slot 0, index
buffer bound as 16-bit indices, and one indexed draw over index range 0..9
with base vertex 0 and instance range 0..1 — independent of the window
size; and the constant arrays have 5 vertices and 9 indices, every index
referring to one of the 5 vertices. -/
theorem render_single_indexed_draw (caps : SurfaceCapabilities) (sz : PhysicalSize)
    (st : GraphicEngine) (h : engineNew caps sz = some st) :
    (render st (Except.ok ())).2 =
      Except.ok [RenderCmd.setPipeline,
                 RenderCmd.setVertexBuffer 0,
                 RenderCmd.setIndexBuffer IndexFormat.Uint16,
                 RenderCmd.drawIndexed 0 9 0 0 1] ∧
    ([RenderCmd.setPipeline, RenderCmd.setVertexBuffer 0,
      RenderCmd.setIndexBuffer IndexFormat.Uint16,
      RenderCmd.drawIndexed 0 9 0 0 1].filter isDraw).length = 1 ∧
    VERTICES.length = 5 ∧ INDICES.length = 9 ∧
    (∀ i ∈ INDICES, i < VERTICES.length) := by
  have hni : st.num_indices = 9 := by
    rcases hfmt : surfaceFormat caps.formats with _ | fmt <;>
      rcases hpm : caps.present_modes.head? with _ | pm <;>
      rcases ham : caps.alpha_modes.head? with _ | am <;>
      simp [engineNew, hfmt, hpm, ham] at h
    subst h
    rfl
  refine ⟨?_, by decide, by decide, by decide, by decide⟩
  simp [render, hni]

/-- C7 witness: the engine built from the concrete capabilities `testCaps`
at size 800×600 renders the fixed command list. -/
theorem render_single_indexed_draw_witness :
    (render testEngine (Except.ok ())).2 =
      Except.ok [RenderCmd.setPipeline,
                 RenderCmd.setVertexBuffer 0,
                 RenderCmd.setIndexBuffer IndexFormat.Uint16,
                 RenderCmd.drawIndexed 0 9 0 0 1] :=
  (render_single_indexed_draw testCaps testSize testEngine rfl).1

/-- C8: a close-requested window event sends exactly one Exit message to
the input task and exits the event loop; and the input loop, on reaching an
Exit message at any queue position, terminates in that very iteration with
the table as it stands — every message after the Exit is irrelevant to the
outcome and the loop never goes on to drain past it. -/
theorem exit_terminates_input_loop :
    process_window_event WindowEvt.closeRequested = ([⟨KeyFlag.Exit, escapeCode⟩], true) ∧
    (∀ (kb : Keyboard) (c : Nat) (rest : List KeyState),
        runQueue kb (⟨KeyFlag.Exit, c⟩ :: rest) = RunResult.exited kb) ∧
    (∀ (kb : Keyboard) (pre suf : List KeyState) (c : Nat),
        runQueue kb (pre ++ ⟨KeyFlag.Exit, c⟩ :: suf)
          = runQueue kb (pre ++ [⟨KeyFlag.Exit, c⟩])) ∧
    (∀ (kb kb' : Keyboard) (pre suf : List KeyState) (c : Nat),
        runQueue kb (pre ++ ⟨KeyFlag.Exit, c⟩ :: suf) ≠ RunResult.drained kb') := by
  have hmain : ∀ (pre : List KeyState) (kb : Keyboard) (suf : List KeyState) (c : Nat),
      runQueue kb (pre ++ ⟨KeyFlag.Exit, c⟩ :: suf)
        = runQueue kb (pre ++ [⟨KeyFlag.Exit, c⟩]) ∧
      ∀ kb', runQueue kb (pre ++ ⟨KeyFlag.Exit, c⟩ :: suf) ≠ RunResult.drained kb' := by
    intro pre
    induction pre with
    | nil =>
        intro kb suf c
        exact ⟨rfl, fun kb' h => RunResult.noConfusion h⟩
    | cons v pre ih =>
        intro kb suf c
        by_cases hv : v.key_flag = KeyFlag.Exit
        · constructor
          · simp [runQueue, hv]
          · intro kb'
            simp [runQueue, hv]
        · cases hs : stepMsg kb v with
          | none =>
              constructor
              · simp [runQueue, hv, hs]
              · intro kb'
                simp [runQueue, hv, hs]
          | some kb2 =>
              constructor
              · simpa [runQueue, hv, hs] using (ih kb2 suf c).1
              · intro kb'
                simpa [runQueue, hv, hs] using (ih kb2 suf c).2 kb'
  exact ⟨rfl, fun kb c rest => rfl,
         fun kb pre suf c => (hmain pre kb suf c).1,
         fun kb kb' pre suf c => (hmain pre kb suf c).2 kb'⟩

/-- C8 witness: with an Exit message at the head of a two-message queue the
loop exits immediately with the initial table, ignoring the Pressed message
queued behind it, and the result is not a drained queue. -/
theorem exit_terminates_input_loop_witness :
    runQueue kbInit [⟨KeyFlag.Exit, escapeCode⟩, ⟨KeyFlag.Pressed, 41⟩]
      = RunResult.exited kbInit ∧
    runQueue kbInit ([] ++ ⟨KeyFlag.Exit, escapeCode⟩ :: [⟨KeyFlag.Pressed, 41⟩])
      ≠ RunResult.drained kbInit :=
  ⟨exit_terminates_input_loop.2.1 kbInit escapeCode [⟨KeyFlag.Pressed, 41⟩],
   exit_terminates_input_loop.2.2.2 kbInit kbInit [] [⟨KeyFlag.Pressed, 41⟩] escapeCode⟩

/-- C9: processing the same Pressed or Released message twice in succession
leaves the key table exactly as processing it once (key-repeat events are
absorbed); this also covers the out-of-range case, where both sides are the
same panic. -/
theorem message_processing_idempotent (kb : Keyboard) (v : KeyState) :
    (stepMsg kb v).bind (fun kb1 => stepMsg kb1 v) = stepMsg kb v := by
  obtain ⟨flag, code⟩ := v
  cases flag <;> by_cases h : code < 193 <;>
    simp [stepMsg, kbSet, h]

/-- C10: `render` never mutates the engine's persistent state — config,
stored size, pipeline, vertex buffer, index buffer, and the index/vertex
counts are the same before and after, whether the texture acquisition
succeeds or returns a surface error. -/
theorem render_preserves_engine_state (st : GraphicEngine)
    (acquire : Except SurfaceError Unit) :
    (render st acquire).1 = st := by
  cases acquire <;> rfl

end FPS3D
